import Mathlib

/-!
Verification development for the flood-monitoring script
(`src/flood_monitor.py`).  The definitions below are a shallow embedding of
the script's pure core: threshold classification, plausibility validation,
the TTL cache, the forecast analysis, the ThaiWater response parser, the
priority fallback over the three real-time sources, and the per-cycle
decision logic of `main`.  Water levels, discharges, thresholds and time
are modelled as rationals (the script uses Python floats on values with one
decimal digit; no float rounding is relevant at the values involved).
Time is measured in minutes, matching `timedelta(minutes=ttl)`.
-/

namespace FloodMonitor

/-- Severity scale used throughout the script: the string levels
`"normal" < "watch" < "warning" < "critical"` returned by
`get_alert_level` / `get_water_level_alert_status`. -/
inductive Severity where
  | normal
  | watch
  | warning
  | critical
deriving DecidableEq, Repr

/-- Numeric rank of a severity; mirrors the dict
`priority = {"critical": 3, "warning": 2, "watch": 1, "normal": 0}`
in `analyze_forecast` (flood_monitor.py line 768). -/
def priority : Severity → Nat
  | .normal => 0
  | .watch => 1
  | .warning => 2
  | .critical => 3

/-- Ordering on severities induced by `priority`. -/
def sevLe (a b : Severity) : Prop := priority a ≤ priority b

instance (a b : Severity) : Decidable (sevLe a b) := by
  unfold sevLe; infer_instance

/-- Maximum of two severities under the `priority` order (keeps the first
argument on ties). -/
def sevMax (a b : Severity) : Severity :=
  if priority a < priority b then b else a

/-- Discharge thresholds, m³/s (`THRESHOLDS`, flood_monitor.py lines 50-54). -/
def THRESHOLDS_watch : ℚ := 400
def THRESHOLDS_warning : ℚ := 500
def THRESHOLDS_critical : ℚ := 600

/-- Water-level thresholds, meters MSL (`WATER_LEVEL_THRESHOLDS`,
flood_monitor.py lines 57-62). -/
def WATER_LEVEL_THRESHOLDS_normal : ℚ := 5/2
def WATER_LEVEL_THRESHOLDS_watch : ℚ := 3
def WATER_LEVEL_THRESHOLDS_warning : ℚ := 7/2
def WATER_LEVEL_THRESHOLDS_critical : ℚ := 37/10

/-- Embedding of `validate_water_level` (flood_monitor.py lines 108-123): a reading is
plausible iff it lies in the band `0.5 <= value <= 10.0`. -/
def validate_water_level (value : ℚ) : Bool :=
  decide (1/2 ≤ value ∧ value ≤ 10)

/-- Embedding of `get_water_level_alert_status` (flood_monitor.py lines 665-682):
classify a water level against `WATER_LEVEL_THRESHOLDS`, returning the
`(alert_level, emoji, text)` tuple. -/
def get_water_level_alert_status (water_level : ℚ) : Severity × String × String :=
  if WATER_LEVEL_THRESHOLDS_critical ≤ water_level then
    (.critical, "🔴", "วิกฤต (Critical) - เริ่มท่วม")
  else if WATER_LEVEL_THRESHOLDS_warning ≤ water_level then
    (.warning, "🟠", "เตือนภัย (Warning)")
  else if WATER_LEVEL_THRESHOLDS_watch ≤ water_level then
    (.watch, "🟡", "เฝ้าระวัง (Watch)")
  else
    (.normal, "🟢", "ปกติ (Normal)")

/-- Embedding of `get_alert_level` (flood_monitor.py lines 685-702): classify a
discharge against `THRESHOLDS`, returning `(alert_level, emoji, text)`. -/
def get_alert_level (discharge : ℚ) : Severity × String × String :=
  if THRESHOLDS_critical ≤ discharge then
    (.critical, "🔴", "วิกฤต (Critical)")
  else if THRESHOLDS_warning ≤ discharge then
    (.warning, "🟠", "เตือนภัย (Warning)")
  else if THRESHOLDS_watch ≤ discharge then
    (.watch, "🟡", "เฝ้าระวัง (Watch)")
  else
    (.normal, "🟢", "ปกติ (Normal)")

/-- Numeric cutoff of each non-normal severity in the discharge
`THRESHOLDS` mapping; `normal` has no cutoff and is assigned 0
(every physically meaningful discharge is at least 0). -/
def discharge_cutoff : Severity → ℚ
  | .normal => 0
  | .watch => THRESHOLDS_watch
  | .warning => THRESHOLDS_warning
  | .critical => THRESHOLDS_critical

/-- Default cache TTL in minutes (`CACHE_TTL_MINUTES`,
flood_monitor.py line 89). -/
def CACHE_TTL_MINUTES : ℚ := 15

/-- TTL used for forecast entries: `get_flood_forecast` calls
`get_cached_data(cache_key, ttl_minutes=60)` (flood_monitor.py line 529). -/
def FORECAST_CACHE_TTL_MINUTES : ℚ := 60

/-- The module-level `_cache` dict: a map from string keys to a stored
value paired with the timestamp (in minutes) at which it was stored. -/
def Cache (α : Type) : Type := String → Option (α × ℚ)

/-- The cache with no entries. -/
def emptyCache (α : Type) : Cache α := fun _ => none

/-- Embedding of `get_cached_data` (flood_monitor.py lines 93-100): return the stored
value when the key is present and `now - timestamp < timedelta(minutes=ttl)`,
otherwise `None`. -/
def get_cached_data {α : Type} (cache : Cache α) (now : ℚ) (key : String)
    (ttl_minutes : ℚ) : Option α :=
  match cache key with
  | some (data, timestamp) =>
      if now - timestamp < ttl_minutes then some data else none
  | none => none

/-- Embedding of `set_cached_data` (flood_monitor.py lines 103-105): store the value
with the current timestamp, replacing any previous entry for the key. -/
def set_cached_data {α : Type} (cache : Cache α) (key : String) (data : α)
    (now : ℚ) : Cache α :=
  fun k => if k = key then some (data, now) else cache k

/-- Outcome of one call to a cached fetcher: the returned value, the cache
after the call, and whether the underlying fetch body (network + parse)
was actually run. -/
structure FetchOutcome (α : Type) where
  result : Option α
  cache : Cache α
  adapterInvoked : Bool

/-- The cache discipline shared by `get_rid_hydro1_data`
(flood_monitor.py lines 137-140 and 228-229), `get_thaiwater_data`
(lines 568-571 and 602) and `get_flood_forecast` (lines 528-531 and 546):
consult `get_cached_data` first, and accept the hit — WITHOUT running the
fetch body — only when the stored value is truthy, since the guard in the
script is `if cached:` (lines 139, 530, 570), not `if cached is not None:`.
A stored falsy value (for the fetchers that cache the raw `response.json()`
body this can be an empty or null body) falls through to the fetch body
exactly like a miss.  The body is abstracted as its outcome `adapter`
(`some r` when the fetch and parse succeed, `none` when the attempt
fails); a successful result is stored via `set_cached_data`, and a failure
returns `None` without touching the cache.  `truthy` is the Python
truthiness predicate of the cached value's type. -/
def cachedFetch {α : Type} (cache : Cache α) (key : String) (ttl : ℚ)
    (now : ℚ) (truthy : α → Bool) (adapter : Option α) : FetchOutcome α :=
  match get_cached_data cache now key ttl with
  | some cached =>
      if truthy cached then ⟨some cached, cache, false⟩
      else
        match adapter with
        | some r => ⟨some r, set_cached_data cache key r now, true⟩
        | none => ⟨none, cache, true⟩
  | none =>
      match adapter with
      | some r => ⟨some r, set_cached_data cache key r now, true⟩
      | none => ⟨none, cache, true⟩

/-- One point of the 7-day forecast as built in the loop of
`analyze_forecast` (flood_monitor.py lines 736-748): the `forecast_item`
dict.  The ISO time string and the parsed `datetime` are modelled together
by a single `date` value (a day index; `datetime.fromisoformat` is
order-preserving on the well-formed daily timestamps the API returns). -/
structure ForecastItem where
  date : Nat
  discharge : ℚ
  level : Severity
  emoji : String
  text : String
deriving DecidableEq, Repr

/-- Body of the `for i, (time_str, discharge) in enumerate(zip(...))` loop
in `analyze_forecast`: classify the discharge and build the item. -/
def mkForecastItem (p : Nat × ℚ) : ForecastItem :=
  let cls := get_alert_level p.2
  { date := p.1, discharge := p.2, level := cls.1, emoji := cls.2.1,
    text := cls.2.2 }

/-- Embedding of `max(alerts, key=lambda x: priority[x["level"]])` (flood_monitor.py
line 769): Python's `max` scans left to right and replaces the current
best only on a strictly greater key, so on ties the earliest element
wins.  Returns `none` exactly on the empty list (`result["highest_alert"]`
is only set when `alerts` is non-empty). -/
def pyMax (l : List ForecastItem) : Option ForecastItem :=
  l.foldl
    (fun best x =>
      match best with
      | none => some x
      | some b => if priority b.level < priority x.level then some x else some b)
    none

/-- The `"daily"` object of an Open-Meteo flood response as read by
`analyze_forecast`: `daily_data.get("time", [])` and
`daily_data.get("river_discharge", [])` — a missing array is the empty
list. -/
structure DailyData where
  time : List Nat
  river_discharge : List ℚ
deriving DecidableEq, Repr

/-- Result dict of `analyze_forecast` (flood_monitor.py lines 757-771).
`highest_alert` is the optional key set only when `alerts` is non-empty. -/
structure ForecastAnalysis where
  current_discharge : ℚ
  current_level : Severity
  current_emoji : String
  current_text : String
  forecast_data : List ForecastItem
  has_alerts : Bool
  alerts : List ForecastItem
  highest_alert : Option ForecastItem
deriving DecidableEq, Repr

/-- Embedding of `analyze_forecast` (flood_monitor.py lines 705-776).  The input is
`none` when `not data or "daily" not in data` (line 717); otherwise it is
the `"daily"` object.  The function returns `None` when either the time
or the discharge array is empty (line 724), and otherwise classifies each
zipped point, collects the non-normal ones into `alerts`, and selects
`highest_alert` by `max` over `priority`. -/
def analyze_forecast (data : Option DailyData) : Option ForecastAnalysis :=
  match data with
  | none => none
  | some daily =>
      match daily.time, daily.river_discharge with
      | [], _ => none
      | _, [] => none
      | t :: ts, d :: ds =>
          let cls := get_alert_level d
          let forecast_data := ((t :: ts).zip (d :: ds)).map mkForecastItem
          let alerts := forecast_data.filter
            (fun x => decide (x.level ≠ Severity.normal))
          some
            { current_discharge := d
              current_level := cls.1
              current_emoji := cls.2.1
              current_text := cls.2.2
              forecast_data := forecast_data
              has_alerts := !alerts.isEmpty
              alerts := alerts
              highest_alert := pyMax alerts }

/-- The `observation` object inside a ThaiWater `waterlevel` entry, read
by `latest.get("observation", {}).get(...)` in `parse_thaiwater_data`:
absent keys give `None`. -/
structure TWObservation where
  waterlevel : Option ℚ
  discharge : Option ℚ
deriving DecidableEq, Repr

/-- The `stationMetadata` object inside a ThaiWater `waterlevel` entry. -/
structure TWStationMetadata where
  stationCode : Option String
  stationName : Option String
deriving DecidableEq, Repr

/-- One entry of the `waterlevel` array of a ThaiWater API response. -/
structure TWItem where
  stationMetadata : TWStationMetadata
  datetime : Option String
  observation : TWObservation
deriving DecidableEq, Repr

/-- A ThaiWater API response body as read by `parse_thaiwater_data`:
`waterlevel` is `none` when the key is absent (line 630), and
`dataProviderName` is the optional `metadata.dataProviderName` value
(line 653, default `"ThaiWater"`). -/
structure TWResponse where
  waterlevel : Option (List TWItem)
  dataProviderName : Option String
deriving DecidableEq, Repr

/-- The parsed-reading dict returned by `parse_thaiwater_data`
(flood_monitor.py lines 647-656). -/
structure TWReading where
  station_code : Option String
  station_name : Option String
  datetime : Option String
  water_level : Option ℚ
  discharge : Option ℚ
  agency : String
  source : String
  quality : String
deriving DecidableEq, Repr

/-- Python truthiness of an optional float: `None` and `0.0` are falsy. -/
def pyTruthyQ : Option ℚ → Bool
  | none => false
  | some q => decide (q ≠ 0)

/-- Embedding of `parse_thaiwater_data` (flood_monitor.py lines 616-662).  Returns
`None` when the response is absent, has no `waterlevel` key, or has an
empty `waterlevel` array; otherwise reads the first entry.  The guard on
line 644 is `if water_level and not validate_water_level(water_level, ...)`:
the reading is rejected only when the extracted value is truthy (present
and non-zero) and fails validation — a falsy value (absent or `0`) skips
validation and is carried into the returned reading unchecked. -/
def parse_thaiwater_data (data : Option TWResponse) : Option TWReading :=
  match data with
  | none => none
  | some resp =>
      match resp.waterlevel with
      | none => none
      | some [] => none
      | some (latest :: _) =>
          let water_level := latest.observation.waterlevel
          if pyTruthyQ water_level &&
              !(validate_water_level (water_level.getD 0)) then
            none
          else
            some
              { station_code := latest.stationMetadata.stationCode
                station_name := latest.stationMetadata.stationName
                datetime := latest.datetime
                water_level := water_level
                discharge := latest.observation.discharge
                agency := resp.dataProviderName.getD "ThaiWater"
                source := "ThaiWater API"
                quality := "medium" }

/-- Result dict of `get_rid_hydro1_data` as consumed by `main`
(flood_monitor.py lines 215-223): the latest validated reading from the
primary RID HYDRO-1 source, always tagged `quality = "high"`. -/
structure RidReading where
  station_code : String
  water_level : ℚ
  datetime : String
  quality : String
deriving DecidableEq, Repr

/-- What one station's cycle in `main` ends in
(flood_monitor.py lines 1109-1158): the generic error notification
(forecast channel unavailable), a loud alert message, an uncaught
`KeyError` (the process aborts with a traceback and nothing is
delivered), a silent summary, or no message at all. -/
inductive MainDecision where
  | errorNotification
  | alertLoud
  | crashKeyError
  | summarySilent
  | noMessage
deriving DecidableEq, Repr

/-- The local `has_water_level_alert` of `main` (flood_monitor.py lines
1129-1133): set exactly when the primary RID reading is present and its
level is at least `WATER_LEVEL_THRESHOLDS["watch"]`.  Only `rid_info` is
consulted — the ThaiWater and website readings never feed this check. -/
def has_water_level_alert (rid_info : Option RidReading) : Bool :=
  match rid_info with
  | none => false
  | some r => decide (WATER_LEVEL_THRESHOLDS_watch ≤ r.water_level)

/-- The per-cycle decision logic of `main` (flood_monitor.py lines
1109-1158).  When the forecast fetch fails (`data is None`, line 1111) or
`analyze_forecast` returns `None` (line 1121), an error notification is
sent and the cycle for this station ends (`continue`) — the water-level
alert check on lines 1128-1135 is never reached.  Otherwise the alert
branch is entered when `analysis["has_alerts"] or has_water_level_alert`
(line 1138); inside it `create_alert_message` immediately evaluates
`analysis["highest_alert"]` (line 846), a key `analyze_forecast` sets
only when `alerts` is non-empty (lines 767-770) — so when the branch is
entered solely through the water-level alert this raises an uncaught
`KeyError` and nothing is delivered.  With the key present the alert
message is sent loud (`disable_notification=False`); outside the alert
branch a silent summary is sent when `ALWAYS_SEND_REPORT` is set, and
nothing otherwise. -/
def mainDecision (data : Option DailyData) (rid_info : Option RidReading)
    (always_send_report : Bool) : MainDecision :=
  match analyze_forecast data with
  | none => .errorNotification
  | some analysis =>
      if analysis.has_alerts || has_water_level_alert rid_info then
        match analysis.highest_alert with
        | some _ => .alertLoud
        | none => .crashKeyError
      else if always_send_report then .summarySilent
      else .noMessage

/-- The full per-station flow of `main` (flood_monitor.py lines
1065-1158): the three real-time sources are fetched independently (lines
1065-1099, each fetcher catching all its exceptions and returning its
reading or `None`), and every available reading is passed to the message
builders for display — but the decision is computed exactly as in
`mainDecision`: the forecast analysis and `rid_info` alone determine it,
and `thaiwater_info` and `website_info` appear nowhere in the branch
conditions (lines 1128-1158). -/
def mainDecisionFull {ω : Type} (data : Option DailyData)
    (rid_info : Option RidReading) (thaiwater_info : Option TWReading)
    (website_info : Option ω) (always_send_report : Bool) : MainDecision :=
  match analyze_forecast data with
  | none => .errorNotification
  | some analysis =>
      if analysis.has_alerts || has_water_level_alert rid_info then
        match analysis.highest_alert with
        | some _ => .alertLoud
        | none => .crashKeyError
      else if always_send_report then .summarySilent
      else .noMessage

/-- Highest severity across the points of a forecast analysis (the
"forecast channel" of the fusion rule); `normal` on an empty list. -/
def forecast_severity (a : ForecastAnalysis) : Severity :=
  (a.forecast_data.map (fun x => x.level)).foldl sevMax .normal

/-- Severity of the real-time channel: the classification of the primary
reading's water level, or `normal` when the channel is absent. -/
def realtime_severity (rid_info : Option RidReading) : Severity :=
  match rid_info with
  | none => .normal
  | some r => (get_water_level_alert_status r.water_level).1

/-- Fused overall severity: the maximum of the two channels. -/
def overall_severity (a : ForecastAnalysis) (rid_info : Option RidReading) :
    Severity :=
  sevMax (forecast_severity a) (realtime_severity rid_info)

/-- Embedding of `get_chiangmai_thaiwater_data` (flood_monitor.py lines 382-514),
abstracted over the station-dict type.  On a cache hit the single cached
station is returned wrapped in a one-element list (`return [cached]`,
line 397).  On a miss, `apiParsed` is the outcome of
`parse_chiangmai_api_data` on the API response (`none` when the API call
or the parse failed; the parser never returns an empty list) and
`htmlStations` is the list scraped from the HTML fallback.  On either
successful path only the FIRST station of the returned list is stored in
the cache (`set_cached_data(cache_key, parsed[0])`, lines 409-411, and
`set_cached_data(cache_key, stations_data[0])`, lines 505-507). -/
def get_chiangmai_thaiwater_data {α : Type} (cache : Cache α) (now : ℚ)
    (station_id : String) (apiParsed : Option (List α))
    (htmlStations : List α) : Option (List α) × Cache α :=
  match get_cached_data cache now ("chiangmai_" ++ station_id)
      CACHE_TTL_MINUTES with
  | some cached => (some [cached], cache)
  | none =>
      match apiParsed with
      | some (p :: rest) =>
          (some (p :: rest),
            set_cached_data cache ("chiangmai_" ++ station_id) p now)
      | _ =>
          match htmlStations with
          | [] => (none, cache)
          | s :: rest =>
              (some (s :: rest),
                set_cached_data cache ("chiangmai_" ++ station_id) s now)

/-- Accumulator form of `pyMax` once the running best is known: Python's
`max` keeps the current best and replaces it only on a strictly greater
key. -/
def pickBest (b : ForecastItem) (l : List ForecastItem) : ForecastItem :=
  l.foldl (fun b x => if priority b.level < priority x.level then x else b) b

/-- Forecast input of the spec scenario: discharge series
`[350, 420, 610, 300, 300, 300, 300]`, one point per day. -/
def c2Daily : DailyData :=
  { time := [0, 1, 2, 3, 4, 5, 6]
    river_discharge := [350, 420, 610, 300, 300, 300, 300] }

/-- An all-normal forecast input (every discharge below the watch
cutoff 400). -/
def c4Daily : DailyData :=
  { time := [0, 1, 2, 3, 4, 5, 6]
    river_discharge := [350, 300, 300, 300, 300, 300, 300] }

/-- A one-point all-normal forecast input, used to instantiate
hypothesis-bearing theorems at a concrete cycle. -/
def daily1 : DailyData := { time := [0], river_discharge := [350] }

/-- The analysis `analyze_forecast` produces for `daily1`. -/
def analysis1 : ForecastAnalysis :=
  { current_discharge := 350
    current_level := .normal
    current_emoji := "🟢"
    current_text := "ปกติ (Normal)"
    forecast_data := [⟨0, 350, .normal, "🟢", "ปกติ (Normal)"⟩]
    has_alerts := false
    alerts := []
    highest_alert := none }

/-- The analysis `analyze_forecast` produces for `c2Daily`: day 1 (420)
is `watch`, day 2 (610) is `critical`, every other day is `normal`, and
the highest alert is the day-2 point. -/
def c2Analysis : ForecastAnalysis :=
  { current_discharge := 350
    current_level := .normal
    current_emoji := "🟢"
    current_text := "ปกติ (Normal)"
    forecast_data :=
      [⟨0, 350, .normal, "🟢", "ปกติ (Normal)"⟩,
       ⟨1, 420, .watch, "🟡", "เฝ้าระวัง (Watch)"⟩,
       ⟨2, 610, .critical, "🔴", "วิกฤต (Critical)"⟩,
       ⟨3, 300, .normal, "🟢", "ปกติ (Normal)"⟩,
       ⟨4, 300, .normal, "🟢", "ปกติ (Normal)"⟩,
       ⟨5, 300, .normal, "🟢", "ปกติ (Normal)"⟩,
       ⟨6, 300, .normal, "🟢", "ปกติ (Normal)"⟩]
    has_alerts := true
    alerts :=
      [⟨1, 420, .watch, "🟡", "เฝ้าระวัง (Watch)"⟩,
       ⟨2, 610, .critical, "🔴", "วิกฤต (Critical)"⟩]
    highest_alert := some ⟨2, 610, .critical, "🔴", "วิกฤต (Critical)"⟩ }

/-- The analysis `analyze_forecast` produces for `c4Daily`: every day is
`normal`, no alerts. -/
def c4Analysis : ForecastAnalysis :=
  { current_discharge := 350
    current_level := .normal
    current_emoji := "🟢"
    current_text := "ปกติ (Normal)"
    forecast_data :=
      [⟨0, 350, .normal, "🟢", "ปกติ (Normal)"⟩,
       ⟨1, 300, .normal, "🟢", "ปกติ (Normal)"⟩,
       ⟨2, 300, .normal, "🟢", "ปกติ (Normal)"⟩,
       ⟨3, 300, .normal, "🟢", "ปกติ (Normal)"⟩,
       ⟨4, 300, .normal, "🟢", "ปกติ (Normal)"⟩,
       ⟨5, 300, .normal, "🟢", "ปกติ (Normal)"⟩,
       ⟨6, 300, .normal, "🟢", "ปกติ (Normal)"⟩]
    has_alerts := false
    alerts := []
    highest_alert := none }

/-- A primary RID HYDRO-1 reading of 3.8 m (the real-time scenario value). -/
def rid38 : RidReading :=
  { station_code := "P.1", water_level := 19/5, datetime := "2024-10-01 07:00"
    quality := "high" }

/-- A ThaiWater API response whose first `waterlevel` entry reports
2.9 m — the backup-source scenario payload. -/
def twPayload29 : TWResponse :=
  { waterlevel := some
      [{ stationMetadata := { stationCode := some "P.1"
                              stationName := some "Nawarat Bridge" }
         datetime := some "2024-10-01 07:00"
         observation := { waterlevel := some (29/10), discharge := none } }]
    dataProviderName := none }

/-- The reading `parse_thaiwater_data` extracts from `twPayload29`. -/
def tw29Reading : TWReading :=
  { station_code := some "P.1"
    station_name := some "Nawarat Bridge"
    datetime := some "2024-10-01 07:00"
    water_level := some (29/10)
    discharge := none
    agency := "ThaiWater"
    source := "ThaiWater API"
    quality := "medium" }

/-- A ThaiWater API response whose first `waterlevel` entry reports
3.8 m — a valid, critical-level reading from the backup source. -/
def twPayload38 : TWResponse :=
  { waterlevel := some
      [{ stationMetadata := { stationCode := some "P.1"
                              stationName := some "Nawarat Bridge" }
         datetime := some "2024-10-01 07:00"
         observation := { waterlevel := some (19/5), discharge := none } }]
    dataProviderName := none }

/-- The reading `parse_thaiwater_data` extracts from `twPayload38`. -/
def tw38Reading : TWReading :=
  { station_code := some "P.1"
    station_name := some "Nawarat Bridge"
    datetime := some "2024-10-01 07:00"
    water_level := some (19/5)
    discharge := none
    agency := "ThaiWater"
    source := "ThaiWater API"
    quality := "medium" }

/-- A ThaiWater API response whose first entry reports a water level of
exactly 0 — outside the plausibility band, yet falsy in Python. -/
def twPayload0 : TWResponse :=
  { waterlevel := some
      [{ stationMetadata := { stationCode := some "P.1"
                              stationName := some "Nawarat Bridge" }
         datetime := some "2024-10-01 07:00"
         observation := { waterlevel := some 0, discharge := none } }]
    dataProviderName := none }

/-! Supporting lemmas. -/

lemma sevMax_eq_normal_iff (a b : Severity) :
    sevMax a b = .normal ↔ a = .normal ∧ b = .normal := by
  cases a <;> cases b <;> decide

lemma sevMax_normal_right (a : Severity) : sevMax a .normal = a := by
  cases a <;> decide

lemma sevLe_left_sevMax (a b : Severity) : sevLe a (sevMax a b) := by
  cases a <;> cases b <;> decide

lemma sevLe_right_sevMax (a b : Severity) : sevLe b (sevMax a b) := by
  cases a <;> cases b <;> decide

lemma foldl_sevMax_eq_normal (l : List Severity) : ∀ acc : Severity,
    l.foldl sevMax acc = .normal ↔ (acc = .normal ∧ ∀ s ∈ l, s = .normal) := by
  induction l with
  | nil => intro acc; simp
  | cons x xs ih =>
      intro acc
      rw [List.foldl_cons, ih (sevMax acc x), sevMax_eq_normal_iff]
      simp only [List.mem_cons]
      constructor
      · rintro ⟨⟨ha, hx⟩, hall⟩
        exact ⟨ha, fun s hs => hs.elim (fun he => he ▸ hx) (hall s)⟩
      · rintro ⟨ha, hall⟩
        exact ⟨⟨ha, hall x (Or.inl rfl)⟩, fun s hs => hall s (Or.inr hs)⟩

lemma forecast_severity_eq_normal_iff (a : ForecastAnalysis) :
    forecast_severity a = .normal ↔ ∀ x ∈ a.forecast_data, x.level = .normal := by
  unfold forecast_severity
  rw [foldl_sevMax_eq_normal]
  simp

lemma water_level_status_ne_normal_iff (wl : ℚ) :
    (get_water_level_alert_status wl).1 ≠ .normal ↔
      WATER_LEVEL_THRESHOLDS_watch ≤ wl := by
  unfold get_water_level_alert_status WATER_LEVEL_THRESHOLDS_watch
    WATER_LEVEL_THRESHOLDS_warning WATER_LEVEL_THRESHOLDS_critical
  split_ifs with h1 h2 h3 <;> simp <;> linarith

lemma get_alert_level_highest_cutoff (dv : ℚ) (s : Severity) :
    sevLe s (get_alert_level dv).1 ↔ (s = .normal ∨ discharge_cutoff s ≤ dv) := by
  unfold get_alert_level discharge_cutoff THRESHOLDS_watch THRESHOLDS_warning
    THRESHOLDS_critical
  split_ifs with h1 h2 h3 <;> cases s <;>
    simp [sevLe, priority] <;> linarith

lemma analyze_forecast_fields (data : Option DailyData) (a : ForecastAnalysis)
    (h : analyze_forecast data = some a) :
    ∃ daily t ts d ds, data = some daily ∧ daily.time = t :: ts ∧
      daily.river_discharge = d :: ds ∧
      a.forecast_data = ((t :: ts).zip (d :: ds)).map mkForecastItem ∧
      a.alerts = a.forecast_data.filter (fun x => decide (x.level ≠ Severity.normal)) ∧
      a.has_alerts = !a.alerts.isEmpty ∧
      a.highest_alert = pyMax a.alerts := by
  cases data with
  | none => simp [analyze_forecast] at h
  | some daily =>
      obtain ⟨tl, dl⟩ := daily
      cases tl with
      | nil => simp [analyze_forecast] at h
      | cons t ts =>
          cases dl with
          | nil => simp [analyze_forecast] at h
          | cons d ds =>
              simp only [analyze_forecast, Option.some.injEq] at h
              subst h
              exact ⟨⟨t :: ts, d :: ds⟩, t, ts, d, ds, rfl, rfl, rfl, rfl, rfl,
                rfl, rfl⟩

lemma pyMax_go (l : List ForecastItem) : ∀ b : ForecastItem,
    l.foldl
      (fun best x =>
        match best with
        | none => some x
        | some bb =>
            if priority bb.level < priority x.level then some x else some bb)
      (some b)
    = some (pickBest b l) := by
  induction l with
  | nil => intro b; rfl
  | cons x xs ih =>
      intro b
      by_cases h : priority b.level < priority x.level <;>
        simp [List.foldl_cons, pickBest, h, ih]

lemma pyMax_cons (x : ForecastItem) (l : List ForecastItem) :
    pyMax (x :: l) = some (pickBest x l) := by
  unfold pyMax
  rw [List.foldl_cons]
  exact pyMax_go l x

lemma pickBest_cons (b x : ForecastItem) (l : List ForecastItem) :
    pickBest b (x :: l) =
      pickBest (if priority b.level < priority x.level then x else b) l := by
  unfold pickBest
  rw [List.foldl_cons]

lemma pickBest_mem (l : List ForecastItem) : ∀ b, pickBest b l ∈ b :: l := by
  induction l with
  | nil => intro b; simp [pickBest]
  | cons x xs ih =>
      intro b
      rw [pickBest_cons]
      by_cases h : priority b.level < priority x.level
      · rw [if_pos h]
        rcases List.mem_cons.mp (ih x) with h1 | h1
        · rw [h1]; simp
        · simp [List.mem_cons, h1]
      · rw [if_neg h]
        rcases List.mem_cons.mp (ih b) with h1 | h1
        · rw [h1]; simp
        · simp [List.mem_cons, h1]

lemma pickBest_le_init (l : List ForecastItem) :
    ∀ b, priority b.level ≤ priority (pickBest b l).level := by
  induction l with
  | nil => intro b; exact le_refl _
  | cons x xs ih =>
      intro b
      rw [pickBest_cons]
      by_cases h : priority b.level < priority x.level
      · rw [if_pos h]
        exact le_trans (le_of_lt h) (ih x)
      · rw [if_neg h]
        exact ih b

lemma pickBest_le_mem (l : List ForecastItem) :
    ∀ b x, x ∈ l → priority x.level ≤ priority (pickBest b l).level := by
  induction l with
  | nil => intro b x hx; simp at hx
  | cons y ys ih =>
      intro b x hx
      rw [pickBest_cons]
      rcases List.mem_cons.mp hx with h1 | h1
      · subst h1
        by_cases h : priority b.level < priority x.level
        · rw [if_pos h]; exact pickBest_le_init ys x
        · rw [if_neg h]
          exact le_trans (not_lt.mp h) (pickBest_le_init ys b)
      · by_cases h : priority b.level < priority y.level
        · rw [if_pos h]; exact ih y x h1
        · rw [if_neg h]; exact ih b x h1

lemma pickBest_earliest (l : List ForecastItem) :
    ∀ b, ∃ l₁ l₂, b :: l = l₁ ++ pickBest b l :: l₂ ∧
      ∀ y ∈ l₁, priority y.level < priority (pickBest b l).level := by
  induction l with
  | nil =>
      intro b
      exact ⟨[], [], by simp [pickBest], by simp⟩
  | cons x xs ih =>
      intro b
      rw [pickBest_cons]
      by_cases h : priority b.level < priority x.level
      · rw [if_pos h]
        obtain ⟨l₁, l₂, heq, hlt⟩ := ih x
        refine ⟨b :: l₁, l₂, ?_, ?_⟩
        · rw [List.cons_append, ← heq]
        · intro y hy
          rcases List.mem_cons.mp hy with h1 | h1
          · subst h1
            exact lt_of_lt_of_le h (pickBest_le_init xs x)
          · exact hlt y h1
      · rw [if_neg h]
        obtain ⟨l₁, l₂, heq, hlt⟩ := ih b
        cases l₁ with
        | nil =>
            simp only [List.nil_append] at heq
            refine ⟨[], x :: xs, ?_, by simp⟩
            rw [List.nil_append]
            rw [List.cons.injEq] at heq
            rw [← heq.1]
        | cons c l₁' =>
            simp only [List.cons_append, List.cons.injEq] at heq
            obtain ⟨hbc, heq2⟩ := heq
            have hblt := hlt c (List.mem_cons_self c l₁')
            refine ⟨b :: x :: l₁', l₂, ?_, ?_⟩
            · conv_lhs => rw [heq2]
              rfl
            · intro y hy
              rcases List.mem_cons.mp hy with h1 | h1
              · have hb : priority b.level = priority c.level := by rw [hbc]
                rw [h1, hb]
                exact hblt
              · rcases List.mem_cons.mp h1 with h2 | h2
                · have hxb : priority x.level ≤ priority b.level := not_lt.mp h
                  rw [hbc] at hxb
                  rw [h2]
                  exact lt_of_le_of_lt hxb hblt
                · exact hlt y (List.mem_cons_of_mem c h2)

lemma pyMax_spec (l : List ForecastItem) (hi : ForecastItem)
    (h : pyMax l = some hi) :
    hi ∈ l ∧ (∀ x ∈ l, priority x.level ≤ priority hi.level) ∧
      ∃ l₁ l₂, l = l₁ ++ hi :: l₂ ∧
        ∀ y ∈ l₁, priority y.level < priority hi.level := by
  cases l with
  | nil => simp [pyMax] at h
  | cons x xs =>
      rw [pyMax_cons] at h
      injection h with h
      subst h
      refine ⟨pickBest_mem xs x, ?_, pickBest_earliest xs x⟩
      intro z hz
      rcases List.mem_cons.mp hz with h1 | h1
      · rw [h1]; exact pickBest_le_init xs x
      · exact pickBest_le_mem xs x z h1

lemma has_alerts_iff (data : Option DailyData) (a : ForecastAnalysis)
    (h : analyze_forecast data = some a) :
    a.has_alerts = true ↔ forecast_severity a ≠ .normal := by
  obtain ⟨daily, t, ts, d, ds, _, _, _, hfd, hal, hha, _⟩ :=
    analyze_forecast_fields data a h
  rw [hha, hal, Ne, forecast_severity_eq_normal_iff]
  simp [List.isEmpty_iff, List.filter_eq_nil_iff]

lemma has_water_level_alert_iff (rid : Option RidReading) :
    has_water_level_alert rid = true ↔ realtime_severity rid ≠ .normal := by
  cases rid with
  | none => simp [has_water_level_alert, realtime_severity]
  | some r =>
      rw [show has_water_level_alert (some r)
          = decide (WATER_LEVEL_THRESHOLDS_watch ≤ r.water_level) from rfl]
      rw [show realtime_severity (some r)
          = (get_water_level_alert_status r.water_level).1 from rfl]
      rw [decide_eq_true_eq]
      exact (water_level_status_ne_normal_iff r.water_level).symm

lemma overall_severity_ne_normal_iff (a : ForecastAnalysis)
    (rid : Option RidReading) :
    overall_severity a rid ≠ .normal ↔
      forecast_severity a ≠ .normal ∨ realtime_severity rid ≠ .normal := by
  unfold overall_severity
  simp only [ne_eq, sevMax_eq_normal_iff, not_and_or]

lemma pyMax_eq_none_iff (l : List ForecastItem) : pyMax l = none ↔ l = [] := by
  cases l with
  | nil => simp [pyMax]
  | cons x xs =>
      rw [pyMax_cons]
      simp

lemma mainDecision_characterization (data : Option DailyData)
    (a : ForecastAnalysis) (rid : Option RidReading) (flag : Bool)
    (h : analyze_forecast data = some a) :
    mainDecision data rid flag =
      if forecast_severity a ≠ .normal then .alertLoud
      else if realtime_severity rid ≠ .normal then .crashKeyError
      else if flag then .summarySilent
      else .noMessage := by
  obtain ⟨daily, t, ts, d, ds, _, _, _, hfd, hal, hha, hhi⟩ :=
    analyze_forecast_fields data a h
  have hfa := has_alerts_iff data a h
  have hrt := has_water_level_alert_iff rid
  have hmd : mainDecision data rid flag =
      if (a.has_alerts || has_water_level_alert rid) = true then
        (match a.highest_alert with
         | some _ => MainDecision.alertLoud
         | none => MainDecision.crashKeyError)
      else if flag = true then MainDecision.summarySilent
      else MainDecision.noMessage := by
    unfold mainDecision
    rw [h]
  rw [hmd]
  by_cases hf : forecast_severity a ≠ .normal
  · rw [if_pos hf]
    have hha' : a.has_alerts = true := hfa.mpr hf
    have hne : a.alerts ≠ [] := by
      intro hnil
      rw [hha, hnil] at hha'
      simp at hha'
    obtain ⟨x, xs, hax⟩ : ∃ x xs, a.alerts = x :: xs := by
      cases hal2 : a.alerts with
      | nil => exact absurd hal2 hne
      | cons x xs => exact ⟨x, xs, rfl⟩
    rw [hha', hhi, hax, pyMax_cons]
    simp
  · rw [if_neg hf]
    have hf' : forecast_severity a = .normal := not_not.mp hf
    have hha' : a.has_alerts = false := by
      cases hb : a.has_alerts
      · rfl
      · exact absurd (hfa.mp hb) (by simp [hf'])
    have hnil : a.alerts = [] := by
      rw [hha] at hha'
      rw [← List.isEmpty_iff]
      cases hemp : a.alerts.isEmpty
      · rw [hemp] at hha'
        simp at hha'
      · rfl
    have hhin : a.highest_alert = none := by
      rw [hhi, (pyMax_eq_none_iff a.alerts).mpr hnil]
    rw [hha', hhin]
    by_cases hr : realtime_severity rid ≠ .normal
    · rw [if_pos hr, hrt.mpr hr]
      simp
    · rw [if_neg hr]
      have hw' : has_water_level_alert rid = false := by
        cases hb : has_water_level_alert rid
        · rfl
        · exact absurd (hrt.mp hb) hr
      rw [hw']
      simp

lemma analyze_forecast_c2 : analyze_forecast (some c2Daily) = some c2Analysis := by
  norm_num [analyze_forecast, c2Daily, c2Analysis, mkForecastItem, get_alert_level,
    pyMax, priority, List.filter, List.foldl,
    THRESHOLDS_watch, THRESHOLDS_warning, THRESHOLDS_critical]
  all_goals decide

lemma analyze_forecast_c4 : analyze_forecast (some c4Daily) = some c4Analysis := by
  norm_num [analyze_forecast, c4Daily, c4Analysis, mkForecastItem, get_alert_level,
    pyMax, priority, List.filter, List.foldl,
    THRESHOLDS_watch, THRESHOLDS_warning, THRESHOLDS_critical]

lemma analyze_forecast_daily1 : analyze_forecast (some daily1) = some analysis1 := by
  norm_num [analyze_forecast, daily1, analysis1, mkForecastItem, get_alert_level,
    pyMax, priority, List.filter, List.foldl,
    THRESHOLDS_watch, THRESHOLDS_warning, THRESHOLDS_critical]

lemma parse_thaiwater_29 :
    parse_thaiwater_data (some twPayload29) = some tw29Reading := by
  norm_num [parse_thaiwater_data, twPayload29, tw29Reading, pyTruthyQ,
    validate_water_level]

lemma parse_thaiwater_38 :
    parse_thaiwater_data (some twPayload38) = some tw38Reading := by
  norm_num [parse_thaiwater_data, twPayload38, tw38Reading, pyTruthyQ,
    validate_water_level]

lemma forecast_severity_c2 : forecast_severity c2Analysis = .critical := by
  norm_num [forecast_severity, c2Analysis, sevMax, priority, List.foldl]

lemma forecast_severity_c4 : forecast_severity c4Analysis = .normal := by
  norm_num [forecast_severity, c4Analysis, sevMax, priority, List.foldl]

lemma status_38_critical : (get_water_level_alert_status (19/5)).1 = .critical := by
  norm_num [get_water_level_alert_status, WATER_LEVEL_THRESHOLDS_critical]

/-! Claim theorems. -/

/-- C1 (counterexample): the primary source fails and the backup
ThaiWater payload carries a VALID, critical 3.8 m reading — the backup
reading is parsed, validated and tagged `"medium"`, yet the cycle raises
no alert at all (it ends in the silent summary): the water-level alert
check consults only `rid_info`, so no resolution ever returns the
backup's reading in place of the failed primary. -/
theorem backup_reading_does_not_substitute :
    parse_thaiwater_data (some twPayload38) = some tw38Reading ∧
    tw38Reading.water_level = some (19/5) ∧
    validate_water_level (19/5) = true ∧
    (get_water_level_alert_status (19/5)).1 = .critical ∧
    mainDecisionFull (some daily1) none (some tw38Reading)
      (none : Option Unit) true = .summarySilent ∧
    mainDecisionFull (some daily1) none (some tw38Reading)
      (none : Option Unit) true ≠ .alertLoud := by
  refine ⟨parse_thaiwater_38, rfl, by norm_num [validate_water_level],
    status_38_critical, ?_, ?_⟩
  · rw [show mainDecisionFull (some daily1) none (some tw38Reading)
        (none : Option Unit) true = mainDecision (some daily1) none true
      from rfl]
    rw [mainDecision_characterization (some daily1) analysis1 none true
      analyze_forecast_daily1]
    decide
  · rw [show mainDecisionFull (some daily1) none (some tw38Reading)
        (none : Option Unit) true = mainDecision (some daily1) none true
      from rfl]
    rw [mainDecision_characterization (some daily1) analysis1 none true
      analyze_forecast_daily1]
    decide

/-- C1 (amended): `main` fetches the three real-time sources
independently; every fetcher catches its own exceptions, so when the
primary times out and the backup returns 2.9 the backup's reading —
value 2.9, tagged with the backup's `"medium"` quality tier — is parsed
and included in the report and no exception propagates.  But there is no
fallback resolution to a single reading: the per-cycle decision is a
function of the forecast analysis and the primary `rid_info` alone, and
the ThaiWater and website readings never influence it. -/
theorem no_fallback_resolution_in_main :
    (parse_thaiwater_data (some twPayload29) = some tw29Reading ∧
      tw29Reading.quality = "medium" ∧
      tw29Reading.water_level = some (29/10)) ∧
    (∀ (ω : Type) (data : Option DailyData) (rid : Option RidReading)
        (tw : Option TWReading) (web : Option ω) (flag : Bool),
      mainDecisionFull data rid tw web flag = mainDecision data rid flag) ∧
    has_water_level_alert none = false :=
  ⟨⟨parse_thaiwater_29, rfl, rfl⟩,
   fun _ _ _ _ _ _ => rfl, rfl⟩

/-- C4 (failing input): a real-time water level of 3.8 m classifies as
`critical` against the water-level thresholds (watch 3.0, warning 3.5,
critical 3.7) and fused with an all-normal forecast the overall severity
is `critical` — but no loud alert is delivered: the cycle enters the
alert branch with `has_alerts` false, `create_alert_message` evaluates
the absent `analysis["highest_alert"]` key (line 846) and the process
aborts on an uncaught `KeyError` with nothing sent. -/
theorem realtime_critical_scenario :
    (get_water_level_alert_status (19/5)).1 = .critical ∧
    rid38.water_level = 19/5 ∧
    analyze_forecast (some c4Daily) = some c4Analysis ∧
    forecast_severity c4Analysis = .normal ∧
    overall_severity c4Analysis (some rid38) = .critical ∧
    (∀ flag : Bool,
      mainDecision (some c4Daily) (some rid38) flag = .crashKeyError) ∧
    mainDecision (some c4Daily) (some rid38) true ≠ .alertLoud := by
  have hrt : realtime_severity (some rid38) = .critical := status_38_critical
  have hov : overall_severity c4Analysis (some rid38) = .critical := by
    unfold overall_severity
    rw [forecast_severity_c4, hrt]
    decide
  have hdec : ∀ flag : Bool,
      mainDecision (some c4Daily) (some rid38) flag = .crashKeyError := by
    intro flag
    rw [mainDecision_characterization (some c4Daily) c4Analysis (some rid38)
      flag analyze_forecast_c4]
    rw [if_neg (by rw [forecast_severity_c4]; exact fun hc => hc rfl)]
    rw [if_pos (by rw [hrt]; exact fun hc => Severity.noConfusion hc)]
  refine ⟨status_38_critical, rfl, analyze_forecast_c4, forecast_severity_c4,
    hov, hdec, ?_⟩
  rw [hdec true]
  exact fun hc => MainDecision.noConfusion hc

/-- C6 (failing input): the plausibility band rejects a water level of 0,
yet `parse_thaiwater_data` on a payload reporting exactly 0 skips
validation (the Python guard `if water_level and not validate...` is
falsy at 0) and returns a reading carrying the out-of-band value 0 into
the pipeline. -/
theorem thaiwater_zero_level_reading :
    validate_water_level 0 = false ∧
    parse_thaiwater_data (some twPayload0) =
      some { station_code := some "P.1", station_name := some "Nawarat Bridge",
             datetime := some "2024-10-01 07:00", water_level := some 0,
             discharge := none, agency := "ThaiWater", source := "ThaiWater API",
             quality := "medium" } := by
  constructor
  · norm_num [validate_water_level]
  · norm_num [parse_thaiwater_data, twPayload0, pyTruthyQ]

/-- C7 (counterexample): a successful fetch can store a FALSY body (the
fetchers caching raw `response.json()` store whatever the endpoint
returned, e.g. an empty object); the hit check is Python truthiness
(`if cached:`), so a resolution 10 minutes later — strictly within the
15-minute TTL — re-runs the fetch body even though an unexpired entry
for the key is present, contradicting the claim that no within-TTL
resolution invokes the adapter a second time. -/
theorem falsy_cached_body_reinvoked_within_ttl :
    ((10 : ℚ) - 0 < CACHE_TTL_MINUTES) ∧
    get_cached_data
      (set_cached_data (emptyCache (List ℚ)) "thaiwater_P.1_G07003"
        ([] : List ℚ) 0)
      10 "thaiwater_P.1_G07003" CACHE_TTL_MINUTES = some [] ∧
    (cachedFetch
      (set_cached_data (emptyCache (List ℚ)) "thaiwater_P.1_G07003"
        ([] : List ℚ) 0)
      "thaiwater_P.1_G07003" CACHE_TTL_MINUTES 10
      (fun l => !l.isEmpty) none).adapterInvoked = true := by
  have hget : get_cached_data
      (set_cached_data (emptyCache (List ℚ)) "thaiwater_P.1_G07003"
        ([] : List ℚ) 0)
      10 "thaiwater_P.1_G07003" CACHE_TTL_MINUTES = some [] := by
    unfold get_cached_data set_cached_data
    norm_num [CACHE_TTL_MINUTES]
  refine ⟨by norm_num [CACHE_TTL_MINUTES], hget, ?_⟩
  unfold cachedFetch
  rw [hget]
  rfl

/-- C7 (amended): after a successful fetch stores a truthy value at time
`t0`, a resolution strictly within the TTL returns the stored value
without running the fetch body again; a resolution at or after the TTL
finds no valid cache entry and runs the body again; and a stored falsy
value is treated like a miss — the body runs again even within the TTL. -/
theorem cache_hit_within_ttl_and_expiry {α : Type} (c : Cache α)
    (key : String) (v : α) (t0 t ttl : ℚ) (truthy : α → Bool)
    (adapter : Option α) :
    (t - t0 < ttl → truthy v = true →
      cachedFetch (set_cached_data c key v t0) key ttl t truthy adapter =
        ⟨some v, set_cached_data c key v t0, false⟩) ∧
    (ttl ≤ t - t0 →
      get_cached_data (set_cached_data c key v t0) t key ttl = none ∧
      (cachedFetch (set_cached_data c key v t0) key ttl t truthy
          adapter).adapterInvoked = true) ∧
    (t - t0 < ttl → truthy v = false →
      (cachedFetch (set_cached_data c key v t0) key ttl t truthy
          adapter).adapterInvoked = true) := by
  have hget : get_cached_data (set_cached_data c key v t0) t key ttl =
      if t - t0 < ttl then some v else none := by
    unfold get_cached_data set_cached_data
    simp
  refine ⟨?_, ?_, ?_⟩
  · intro hlt htr
    unfold cachedFetch
    rw [hget, if_pos hlt]
    simp [htr]
  · intro hge
    have hnone : get_cached_data (set_cached_data c key v t0) t key ttl = none := by
      rw [hget, if_neg (not_lt.mpr hge)]
    refine ⟨hnone, ?_⟩
    unfold cachedFetch
    rw [hnone]
    cases adapter <;> rfl
  · intro hlt htr
    unfold cachedFetch
    rw [hget, if_pos hlt]
    simp only [htr, Bool.false_eq_true, if_neg]
    cases adapter <;> rfl

/-- C7 witness: a truthy value (a 2.9 m reading, non-zero hence truthy)
stored at minute 0 is returned from cache at minute 10 (within the
default 15-minute TTL) without running the fetch body, and at minute 20
the body runs again. -/
theorem cache_hit_within_ttl_and_expiry_witness :
    cachedFetch (set_cached_data (emptyCache ℚ) "rid_hydro1_P.1" (29/10) 0)
        "rid_hydro1_P.1" CACHE_TTL_MINUTES 10 (fun q => decide (q ≠ 0)) none =
      ⟨some (29/10), set_cached_data (emptyCache ℚ) "rid_hydro1_P.1" (29/10) 0,
        false⟩ ∧
    (cachedFetch (set_cached_data (emptyCache ℚ) "rid_hydro1_P.1" (29/10) 0)
        "rid_hydro1_P.1" CACHE_TTL_MINUTES 20
        (fun q => decide (q ≠ 0)) none).adapterInvoked = true :=
  ⟨(cache_hit_within_ttl_and_expiry (emptyCache ℚ) "rid_hydro1_P.1" (29/10) 0 10
      CACHE_TTL_MINUTES (fun q => decide (q ≠ 0)) none).1
      (by norm_num [CACHE_TTL_MINUTES]) (by norm_num),
   ((cache_hit_within_ttl_and_expiry (emptyCache ℚ) "rid_hydro1_P.1" (29/10) 0 20
      CACHE_TTL_MINUTES (fun q => decide (q ≠ 0)) none).2.1
      (by norm_num [CACHE_TTL_MINUTES])).2⟩

/-- C8: a forecast input that is absent, lacks the `daily` object, or has
an empty time or discharge array makes `analyze_forecast` return `None`
(forecast unavailable), never a defaulted all-normal analysis. -/
theorem analyze_forecast_unavailable :
    analyze_forecast none = none ∧
    ∀ daily : DailyData, daily.time = [] ∨ daily.river_discharge = [] →
      analyze_forecast (some daily) = none := by
  refine ⟨rfl, ?_⟩
  intro daily hd
  obtain ⟨tl, dl⟩ := daily
  rcases hd with h | h
  · simp only at h
    subst h
    cases dl <;> rfl
  · simp only at h
    subst h
    cases tl <;> rfl

/-- C8 witness: the empty forecast (no points at all) yields `None`. -/
theorem analyze_forecast_unavailable_witness :
    analyze_forecast (some { time := [], river_discharge := [] }) = none :=
  analyze_forecast_unavailable.2 { time := [], river_discharge := [] }
    (Or.inl rfl)

/-- C9 (counterexample): after a completed FAILED fetch attempt on an
empty cache, the cache entry for the key holds nothing at all — the
failure outcome is not stored, contradicting the claim that every
attempt's outcome is cached. -/
theorem failed_fetch_leaves_no_entry :
    (cachedFetch (emptyCache TWReading) "thaiwater_P.1_G07003"
        CACHE_TTL_MINUTES 0 (fun _ => true) none).adapterInvoked = true ∧
    (cachedFetch (emptyCache TWReading) "thaiwater_P.1_G07003"
        CACHE_TTL_MINUTES 0 (fun _ => true) none).cache "thaiwater_P.1_G07003"
      = none :=
  ⟨rfl, rfl⟩

/-- C9 (amended): after a completed fetch attempt that misses the cache,
on success the entry for the key holds the reading together with its
capture timestamp; on failure the cache is left unchanged (failures are
never stored), and the call returns whatever the unexpired cache held. -/
theorem cache_stores_outcome_only_on_success {α : Type} (c : Cache α)
    (key : String) (ttl t : ℚ) (truthy : α → Bool) :
    (∀ r : α, get_cached_data c t key ttl = none →
      (cachedFetch c key ttl t truthy (some r)).cache key = some (r, t) ∧
      (cachedFetch c key ttl t truthy (some r)).result = some r) ∧
    (cachedFetch c key ttl t truthy none).cache = c ∧
    (cachedFetch c key ttl t truthy none).result =
      (match get_cached_data c t key ttl with
       | some d => if truthy d then some d else none
       | none => none) := by
  refine ⟨?_, ?_, ?_⟩
  · intro r hmiss
    unfold cachedFetch
    rw [hmiss]
    constructor
    · unfold set_cached_data
      simp
    · rfl
  · unfold cachedFetch
    cases hg : get_cached_data c t key ttl with
    | none => rfl
    | some d =>
        by_cases ht : truthy d = true
        · simp [ht]
        · simp [ht]
  · unfold cachedFetch
    cases hg : get_cached_data c t key ttl with
    | none => rfl
    | some d =>
        by_cases ht : truthy d = true
        · simp [ht]
        · simp [ht]

/-- C9 amended witness: a successful forecast fetch at minute 5 stores
the value with capture timestamp 5. -/
theorem cache_stores_outcome_only_on_success_witness :
    (cachedFetch (emptyCache ℚ) "forecast_P.1" FORECAST_CACHE_TTL_MINUTES 5
        (fun q => decide (q ≠ 0)) (some (61/10))).cache "forecast_P.1"
      = some (61/10, 5) :=
  ((cache_stores_outcome_only_on_success (emptyCache ℚ) "forecast_P.1"
      FORECAST_CACHE_TTL_MINUTES 5 (fun q => decide (q ≠ 0))).1 (61/10) rfl).1

/-- C2: every forecast point is classified as the highest severity whose
cutoff does not exceed its discharge (default `normal` below all
cutoffs); the selected highest-severity point is the point of maximum
severity with ties broken by the earliest date (list position); and on
the series `[350, 420, 610, 300, 300, 300, 300]` day 2 (610) is
classified `critical`, is the selected point, and the forecast severity
is `critical`. -/
theorem forecast_classification_and_selection (daily : DailyData)
    (a : ForecastAnalysis) (h : analyze_forecast (some daily) = some a) :
    (∀ x ∈ a.forecast_data, x.level = (get_alert_level x.discharge).1) ∧
    (∀ dv : ℚ, ∀ s : Severity,
        sevLe s (get_alert_level dv).1 ↔ (s = .normal ∨ discharge_cutoff s ≤ dv)) ∧
    (∀ hi, a.highest_alert = some hi →
        hi ∈ a.alerts ∧ hi.level ≠ .normal ∧
        (∀ x ∈ a.forecast_data, priority x.level ≤ priority hi.level) ∧
        ∃ l₁ l₂, a.alerts = l₁ ++ hi :: l₂ ∧
          ∀ y ∈ l₁, priority y.level < priority hi.level) ∧
    (analyze_forecast (some c2Daily) = some c2Analysis ∧
      c2Analysis.forecast_data.map (fun x => x.level) =
        [.normal, .watch, .critical, .normal, .normal, .normal, .normal] ∧
      c2Analysis.highest_alert =
        some ⟨2, 610, .critical, "🔴", "วิกฤต (Critical)"⟩ ∧
      forecast_severity c2Analysis = .critical) := by
  obtain ⟨daily2, t, ts, d, ds, hdata, ht, hd, hfd, hal, hha, hhi⟩ :=
    analyze_forecast_fields (some daily) a h
  refine ⟨?_, get_alert_level_highest_cutoff, ?_, analyze_forecast_c2, rfl, rfl,
    forecast_severity_c2⟩
  · intro x hx
    rw [hfd] at hx
    obtain ⟨p, hp, hpx⟩ := List.mem_map.mp hx
    rw [← hpx]
    rfl
  · intro hi hhi2
    rw [hhi] at hhi2
    obtain ⟨hmem, hmax, hdecomp⟩ := pyMax_spec a.alerts hi hhi2
    have hne : hi.level ≠ .normal := by
      rw [hal] at hmem
      have := List.of_mem_filter hmem
      exact of_decide_eq_true this
    refine ⟨hmem, hne, ?_, hdecomp⟩
    intro x hx
    by_cases hxn : x.level = .normal
    · rw [hxn]
      exact Nat.zero_le _
    · have hxa : x ∈ a.alerts := by
        rw [hal]
        exact List.mem_filter.mpr ⟨hx, decide_eq_true hxn⟩
      exact hmax x hxa

/-- C2 witness: the theorem instantiated at the scenario series, giving
the day-2 critical point as the selected highest alert. -/
theorem forecast_classification_and_selection_witness :
    analyze_forecast (some c2Daily) = some c2Analysis ∧
    c2Analysis.highest_alert =
      some ⟨2, 610, .critical, "🔴", "วิกฤต (Critical)"⟩ ∧
    forecast_severity c2Analysis = .critical :=
  letI T := forecast_classification_and_selection c2Daily c2Analysis
    analyze_forecast_c2
  ⟨T.2.2.2.1, T.2.2.2.2.2.1, T.2.2.2.2.2.2⟩

/-- C3 (counterexample): with the forecast channel unavailable and a
primary real-time reading of 3.8 m (severity `critical`), the cycle
sends the generic error notification and the real-time alert is NOT
delivered — `main` returns to the next station before ever reaching the
water-level alert check. -/
theorem forecast_unavailable_suppresses_realtime_alert :
    (get_water_level_alert_status (19/5)).1 = .critical ∧
    rid38.water_level = 19/5 ∧
    mainDecision none (some rid38) true = .errorNotification ∧
    mainDecision none (some rid38) true ≠ .alertLoud :=
  ⟨status_38_critical, rfl, rfl, fun hc => MainDecision.noConfusion hc⟩

/-- C3 (amended): when the forecast analysis is available, the alert
branch is entered exactly when the maximum of the forecast severity and
the real-time severity exceeds `normal`; a forecast-channel alert is
always delivered loudly; an absent real-time channel contributes
`normal` (it never raises the overall severity and never suppresses a
forecast alert); but a genuine alert can still go undelivered — when
only the real-time channel alerts the cycle crashes on the missing
`highest_alert` key, and when the forecast channel is unavailable the
cycle sends an error notification and the real-time channel is never
consulted. -/
theorem fusion_is_max_when_forecast_available (data : Option DailyData)
    (a : ForecastAnalysis) (rid : Option RidReading) (flag : Bool)
    (h : analyze_forecast data = some a) :
    ((mainDecision data rid flag = .alertLoud ∨
        mainDecision data rid flag = .crashKeyError) ↔
      overall_severity a rid ≠ .normal) ∧
    (forecast_severity a ≠ .normal →
      mainDecision data rid flag = .alertLoud) ∧
    (forecast_severity a = .normal → realtime_severity rid ≠ .normal →
      mainDecision data rid flag = .crashKeyError) ∧
    overall_severity a none = forecast_severity a ∧
    sevLe (forecast_severity a) (overall_severity a rid) ∧
    sevLe (realtime_severity rid) (overall_severity a rid) ∧
    mainDecision none rid flag = .errorNotification := by
  have hchar := mainDecision_characterization data a rid flag h
  refine ⟨?_, ?_, ?_, ?_, sevLe_left_sevMax _ _, sevLe_right_sevMax _ _, rfl⟩
  · rw [hchar, overall_severity_ne_normal_iff]
    by_cases hf : forecast_severity a ≠ .normal
    · simp [hf]
    · by_cases hr : realtime_severity rid ≠ .normal
      · simp [hf, hr]
      · simp only [hf, hr, or_self, iff_false, if_neg]
        cases flag <;> simp
  · intro hf
    rw [hchar, if_pos hf]
  · intro hf hr
    rw [hchar, if_neg (by simp [hf]), if_pos hr]
  · unfold overall_severity realtime_severity
    exact sevMax_normal_right _

/-- C3 amended witness: a critical forecast fused with the 3.8 m
real-time reading delivers a loud alert (the forecast channel alerts, so
the `highest_alert` key is present and the message is sent). -/
theorem fusion_is_max_when_forecast_available_witness :
    mainDecision (some c2Daily) (some rid38) true = .alertLoud := by
  refine (fusion_is_max_when_forecast_available (some c2Daily) c2Analysis
    (some rid38) true analyze_forecast_c2).2.1 ?_
  rw [forecast_severity_c2]
  exact fun hc => Severity.noConfusion hc

/-- C5 (counterexample): a cycle whose overall severity is `critical`
solely through the real-time channel delivers NO audible message — the
alert branch is entered but `create_alert_message` crashes on the absent
`highest_alert` key, contradicting the claim that severity above
`normal` always produces an audible delivery. -/
theorem audible_delivery_fails_on_realtime_only_alert :
    overall_severity analysis1 (some rid38) = .critical ∧
    mainDecision (some daily1) (some rid38) true = .crashKeyError ∧
    mainDecision (some daily1) (some rid38) true ≠ .alertLoud := by
  have hrt : realtime_severity (some rid38) = .critical := status_38_critical
  have hchar := mainDecision_characterization (some daily1) analysis1
    (some rid38) true analyze_forecast_daily1
  have hdec : mainDecision (some daily1) (some rid38) true = .crashKeyError := by
    rw [hchar, hrt]
    decide
  refine ⟨?_, hdec, ?_⟩
  · unfold overall_severity
    rw [hrt]
    decide
  · rw [hdec]
    exact fun hc => MainDecision.noConfusion hc

/-- C5 (amended): for every cycle whose forecast analysis is available,
a loud alert is delivered when the forecast severity exceeds `normal`;
when the overall severity exceeds `normal` solely through the real-time
channel the cycle crashes on the missing `highest_alert` key and nothing
is delivered; otherwise a silent summary is delivered when the
always-report flag is set, and nothing at all when it is not. -/
theorem notification_policy_states (data : Option DailyData)
    (a : ForecastAnalysis) (rid : Option RidReading) (flag : Bool)
    (h : analyze_forecast data = some a) :
    mainDecision data rid flag =
      if forecast_severity a ≠ .normal then .alertLoud
      else if realtime_severity rid ≠ .normal then .crashKeyError
      else if flag then .summarySilent
      else .noMessage :=
  mainDecision_characterization data a rid flag h

/-- C5 witness: an all-normal cycle with the always-report flag off
delivers nothing; with it on, the silent summary; and a cycle with a
critical forecast delivers the loud alert. -/
theorem notification_policy_states_witness :
    mainDecision (some daily1) none false = .noMessage ∧
    mainDecision (some daily1) none true = .summarySilent ∧
    mainDecision (some c2Daily) none true = .alertLoud := by
  refine ⟨?_, ?_, ?_⟩
  · rw [notification_policy_states (some daily1) analysis1 none false
      analyze_forecast_daily1]
    decide
  · rw [notification_policy_states (some daily1) analysis1 none true
      analyze_forecast_daily1]
    decide
  · rw [notification_policy_states (some c2Daily) c2Analysis none true
      analyze_forecast_c2]
    decide

/-- C10: a call of `get_chiangmai_thaiwater_data` that hits a non-expired
cache entry returns a list of exactly one station; a successful miss
stores only the FIRST station of the parsed list, so a second call
within the TTL returns the one-element list `[p]` even when the original
resolution parsed several stations. -/
theorem chiangmai_cache_hit_single_station {α : Type} (c : Cache α)
    (now t2 : ℚ) (station_id : String) (p : α) (rest : List α)
    (api2 : Option (List α)) (html html2 : List α)
    (hmiss : get_cached_data c now ("chiangmai_" ++ station_id)
        CACHE_TTL_MINUTES = none)
    (hlt : t2 - now < CACHE_TTL_MINUTES) :
    (∀ (cc : Cache α) (tq : ℚ) (s : α) (api : Option (List α))
        (hh : List α),
        get_cached_data cc tq ("chiangmai_" ++ station_id) CACHE_TTL_MINUTES
          = some s →
        (get_chiangmai_thaiwater_data cc tq station_id api hh).1 = some [s]) ∧
    (get_chiangmai_thaiwater_data c now station_id (some (p :: rest)) html).1
      = some (p :: rest) ∧
    (get_chiangmai_thaiwater_data
        (get_chiangmai_thaiwater_data c now station_id (some (p :: rest))
          html).2
        t2 station_id api2 html2).1 = some [p] := by
  refine ⟨?_, ?_, ?_⟩
  · intro cc tq s api hh hhit
    unfold get_chiangmai_thaiwater_data
    rw [hhit]
  · unfold get_chiangmai_thaiwater_data
    rw [hmiss]
  · have hc2 : (get_chiangmai_thaiwater_data c now station_id
        (some (p :: rest)) html).2 =
        set_cached_data c ("chiangmai_" ++ station_id) p now := by
      unfold get_chiangmai_thaiwater_data
      rw [hmiss]
    rw [hc2]
    have hhit : get_cached_data
        (set_cached_data c ("chiangmai_" ++ station_id) p now) t2
        ("chiangmai_" ++ station_id) CACHE_TTL_MINUTES = some p := by
      unfold get_cached_data set_cached_data
      simp [hlt]
    unfold get_chiangmai_thaiwater_data
    rw [hhit]

/-- C10 witness: an original resolution parsing two stations stores only
the first; the second call five minutes later returns exactly one
station. -/
theorem chiangmai_cache_hit_single_station_witness :
    (get_chiangmai_thaiwater_data (emptyCache ℚ) 0 "P.1" (some [1, 2]) []).1
      = some [1, 2] ∧
    (get_chiangmai_thaiwater_data
        (get_chiangmai_thaiwater_data (emptyCache ℚ) 0 "P.1" (some [1, 2])
          []).2
        5 "P.1" none []).1 = some [1] :=
  letI T := chiangmai_cache_hit_single_station (emptyCache ℚ) 0 5 "P.1" 1 [2]
    none [] [] rfl (by norm_num [CACHE_TTL_MINUTES])
  ⟨T.2.1, T.2.2⟩

end FloodMonitor
